import Mathlib

/-!
Verification development for the `my-mcp-server` MCP server (`src/index.ts`).

The TypeScript source registers six tools (`greet`, `calculator`, `time`,
`geocode`, `get-weather`, `generate-image`), one prompt template
(`code-review`) and one resource (`server-info`).  Each handler is a pure
function of its validated arguments plus, for the networked tools, the
outcome of a single outbound HTTP call.  We embed every handler as a Lean
function: JSON numbers become exact rationals (`ℚ`), the JavaScript
number-to-string rendering (template-literal interpolation of numeric
values) is abstracted by an explicit rendering-function parameter, the
current instant becomes an explicit epoch-milliseconds argument, the
process-local timezone becomes an explicit `getTimezoneOffset()` argument
(minutes, UTC − local), and fallible externals (fetch outcomes, the JSON
payloads, the `HF_TOKEN` environment variable) become explicit inductive
arguments.
-/

namespace MCPServer

/-- One content block of a tool response: `{ type: 'text', text }`. -/
structure ContentBlock where
  type : String
  text : String
deriving DecidableEq, Repr

/-- The `structuredContent` object: `{ content: [...] }`. -/
structure StructuredContent where
  content : List ContentBlock
deriving DecidableEq, Repr

/-- A tool handler's return value: `{ content, structuredContent }`. -/
structure ToolResponse where
  content : List ContentBlock
  structuredContent : StructuredContent
deriving DecidableEq, Repr

/-- Every handler branch in the source returns the same literal shape: a
single text block duplicated verbatim into `structuredContent.content`.
This helper abbreviates that repeated literal. -/
def textResponse (t : String) : ToolResponse :=
  { content := [{ type := "text", text := t }]
    structuredContent := { content := [{ type := "text", text := t }] } }

/-- Handler of the `greet` tool.  `language` is schema-validated to the
enum `{ko, en}` (default `en`); the handler tests `language === 'ko'`. -/
def greetHandler (name : String) (language : String) : ToolResponse :=
  let greeting :=
    if language = "ko" then "안녕하세요, " ++ name ++ "님!"
    else "Hey there, " ++ name ++ "! 👋 Nice to meet you!"
  textResponse greeting

/-- Handler of the `calculator` tool.  JSON numbers are embedded as exact
rationals; `render` abstracts the JavaScript template-literal rendering of
a number (`${num}`).  The `switch (operator)` of the source becomes an
if-chain over the operator string, including the unreachable `default`
branch. -/
def calculatorHandler (render : ℚ → String) (num1 num2 : ℚ)
    (operator : String) : ToolResponse :=
  let resultText :=
    if operator = "+" then
      render num1 ++ " + " ++ render num2 ++ " = " ++ render (num1 + num2)
    else if operator = "-" then
      render num1 ++ " - " ++ render num2 ++ " = " ++ render (num1 - num2)
    else if operator = "*" then
      render num1 ++ " × " ++ render num2 ++ " = " ++ render (num1 * num2)
    else if operator = "/" then
      if num2 = 0 then "오류: 0으로 나눌 수 없습니다."
      else render num1 ++ " ÷ " ++ render num2 ++ " = " ++ render (num1 / num2)
    else "오류: 지원하지 않는 연산자입니다."
  textResponse resultText

/-- The schema pattern of the `time` tool, `/^UTC[+-]\d+$/` (zod
`.regex`): the string is `UTC`, a sign character, then one or more ASCII
digits to the end of the string. -/
def timezonePatternMatches (timezone : String) : Bool :=
  match timezone.data with
  | 'U' :: 'T' :: 'C' :: c :: ds =>
      (c = '+' || c = '-') && !ds.isEmpty && ds.all Char.isDigit
  | _ => false

/-- Value of a list of ASCII digit characters read in base 10, as
`parseInt(s, 10)` computes it for an all-digit string. -/
def digitsToNat (ds : List Char) : Nat :=
  ds.foldl (fun n c => 10 * n + (c.toNat - '0'.toNat)) 0

/-- The `time` handler's own match `timezone.match(/^UTC([+-])(\d+)$/)`:
returns the sign (`+1` or `-1`, from group 1) and the parsed hour offset
(`parseInt(match[2], 10)`), or `none` when the pattern fails. -/
def parseTimezone (timezone : String) : Option (Int × Nat) :=
  match timezone.data with
  | 'U' :: 'T' :: 'C' :: c :: ds =>
      if (c = '+' || c = '-') && !ds.isEmpty && ds.all Char.isDigit then
        some (if c = '+' then 1 else -1, digitsToNat ds)
      else none
  | _ => none

/-- Civil date (year, month, day) of a day count relative to 1970-01-01,
the proleptic-Gregorian conversion that `Date.prototype.getUTCFullYear`,
`getUTCMonth + 1` and `getUTCDate` perform on a millisecond timestamp. -/
def civilFromDays (z : Int) : Int × Nat × Nat :=
  let z' := z + 719468
  let era := z'.ediv 146097
  let doe := (z' - era * 146097).toNat
  let yoe := (doe - doe / 1460 + doe / 36524 - doe / 146096) / 365
  let y := (yoe : Int) + era * 400
  let doy := doe - (365 * yoe + yoe / 4 - yoe / 100)
  let mp := (5 * doy + 2) / 153
  let d := doy - (153 * mp + 2) / 5 + 1
  let m := if mp < 10 then mp + 3 else mp - 9
  (if m ≤ 2 then y + 1 else y, m, d)

/-- Two-digit zero padding, `String(n).padStart(2, '0')`. -/
def pad2 (n : Nat) : String :=
  if n < 10 then "0" ++ toString n else toString n

/-- Formatting of an epoch-millisecond instant through the UTC getters of
a JavaScript `Date`, producing `YYYY-MM-DD HH:MM:SS` exactly as the
`time` handler assembles it (year unpadded, all other fields padded). -/
def formatTimestamp (millis : Int) : String :=
  let day := millis.ediv 86400000
  let msOfDay := (millis.emod 86400000).toNat
  let ymd := civilFromDays day
  let hours := msOfDay / 3600000
  let minutes := msOfDay % 3600000 / 60000
  let seconds := msOfDay % 60000 / 1000
  toString ymd.1 ++ "-" ++ pad2 ymd.2.1 ++ "-" ++ pad2 ymd.2.2 ++ " " ++
    pad2 hours ++ ":" ++ pad2 minutes ++ ":" ++ pad2 seconds

/-- Handler of the `time` tool.  `tzOffsetMinutes` is the value of
`new Date().getTimezoneOffset()` in the running process (UTC − local, in
minutes) and `epochMillis` the value of `now.getTime()`.  The source
computes `utcTime = now.getTime() + now.getTimezoneOffset() * 60 * 1000`,
adds `offsetHours * 60 * 60 * 1000 * sign`, and formats the sum with the
UTC getters. -/
def timeHandler (tzOffsetMinutes epochMillis : Int) (timezone : String) :
    ToolResponse :=
  match parseTimezone timezone with
  | none =>
      textResponse
        "오류: 잘못된 시간대 형식입니다. UTC+숫자 또는 UTC-숫자 형식을 사용해주세요."
  | some so =>
      let utcTime := epochMillis + tzOffsetMinutes * 60 * 1000
      let targetTime := utcTime + (so.2 : Int) * 60 * 60 * 1000 * so.1
      textResponse (timezone ++ " 시간대의 현재 시각: " ++ formatTimestamp targetTime)

/-- One element of the Nominatim search response array.  `lat` and `lon`
arrive as JSON strings; `display_name` may be absent (`none`). -/
structure GeoResult where
  lat : String
  lon : String
  display_name : Option String
deriving DecidableEq, Repr

/-- Outcome of the geocode `fetch`: the promise rejects (`networkError`,
caught by the handler's `try`), the response is not ok (`httpError`,
turned into a thrown `API 요청 실패` error and caught), or a JSON array is
returned.  A non-array JSON body is modelled as `ok []`, since the source
treats `!Array.isArray(data)` and `data.length === 0` identically. -/
inductive GeocodeFetch where
  | networkError (message : String)
  | httpError (status : Nat) (statusText : String)
  | ok (data : List GeoResult)
deriving DecidableEq, Repr

/-- Handler of the `geocode` tool.  `renderFloat` abstracts the composite
`${parseFloat(s)}` (parse the JSON string as a number, render it back);
the response text interpolates its results for `lat` and `lon`. -/
def geocodeHandler (renderFloat : String → String) (query : String)
    (fetch : GeocodeFetch) : ToolResponse :=
  match fetch with
  | .networkError message => textResponse ("오류: " ++ message)
  | .httpError status statusText =>
      textResponse ("오류: API 요청 실패: " ++ toString status ++ " " ++ statusText)
  | .ok [] =>
      textResponse ("\"" ++ query ++ "\"에 대한 검색 결과를 찾을 수 없습니다.")
  | .ok (result :: _) =>
      let displayName :=
        match result.display_name with
        | some s => if s = "" then query else s
        | none => query
      textResponse ("위치: " ++ displayName ++ "\n위도: " ++ renderFloat result.lat
        ++ "\n경도: " ++ renderFloat result.lon)

/-- The `current_weather` object of the Open-Meteo payload.  Numeric
fields that are only interpolated into text are carried as their rendered
strings; `weathercode` is compared against the code table, so it stays an
integer. -/
structure CurrentWeather where
  temperature : String
  weathercode : Int
  windspeed : String
  winddirection : String
deriving DecidableEq, Repr

/-- The `daily` object of the Open-Meteo payload.  `time` may be absent
(the source guards `data.daily && data.daily.time`); the other arrays are
defaulted with `|| []` and may be shorter than `time`. -/
structure DailyData where
  time : Option (List String)
  temperature_2m_max : Option (List String)
  temperature_2m_min : Option (List String)
  precipitation_sum : Option (List ℚ)
  weathercode : Option (List Int)
deriving DecidableEq, Repr

/-- The decoded weather payload: `current_weather` may be absent (the
source throws and catches `날씨 데이터를 가져올 수 없습니다.`), `daily`
may be absent (the forecast section is skipped). -/
structure WeatherData where
  current_weather : Option CurrentWeather
  daily : Option DailyData
deriving DecidableEq, Repr

/-- Outcome of the get-weather `fetch`, as for `GeocodeFetch`.  A missing
or non-object body is modelled as `ok` with `current_weather := none`,
which the source treats identically to `!data`. -/
inductive WeatherFetch where
  | networkError (message : String)
  | httpError (status : Nat) (statusText : String)
  | ok (data : WeatherData)
deriving DecidableEq, Repr

/-- The weather-code table of the `get-weather` handler
(`weatherCodes: Record<number, string>`). -/
def weatherCodes : List (Int × String) :=
  [(0, "맑음"), (1, "대체로 맑음"), (2, "부분적으로 흐림"), (3, "흐림"),
   (45, "안개"), (48, "서리 안개"),
   (51, "약한 이슬비"), (53, "중간 이슬비"), (55, "강한 이슬비"),
   (56, "약한 동결 이슬비"), (57, "강한 동결 이슬비"),
   (61, "약한 비"), (63, "중간 비"), (65, "강한 비"),
   (66, "약한 동결 비"), (67, "강한 동결 비"),
   (71, "약한 눈"), (73, "중간 눈"), (75, "강한 눈"), (77, "눈알"),
   (80, "약한 소나기"), (81, "중간 소나기"), (82, "강한 소나기"),
   (85, "약한 눈 소나기"), (86, "강한 눈 소나기"),
   (95, "뇌우"), (96, "우박을 동반한 뇌우"), (99, "강한 우박을 동반한 뇌우")]

/-- The `getWeatherDescription` closure: `weatherCodes[code]` with the
fallback `날씨 코드: ${code}` (the `||` default). -/
def getWeatherDescription (code : Int) : String :=
  (weatherCodes.lookup code).getD ("날씨 코드: " ++ toString code)

/-- One iteration of the daily-forecast loop, at index `i < min
times.length forecastDays`.  Out-of-range indexing of the shorter arrays
(`maxTemps[i]` on a missing index is `undefined`, interpolated as the
string `undefined`; `undefined > 0` is false; `weatherCodes[undefined]`
falls through to the fallback) is modelled by `Option` matches.
`renderNum` abstracts `${num}` for the precipitation value and
`renderDate` abstracts `${date.getMonth() + 1}/${date.getDate()}` of
`new Date(times[i])`. -/
def forecastLine (renderNum : ℚ → String) (renderDate : String → String)
    (times maxTemps minTemps : List String) (precipitations : List ℚ)
    (dayCodes : List Int) (i : Nat) : String :=
  let t := (times.get? i).getD "undefined"
  let desc :=
    match dayCodes.get? i with
    | some c => getWeatherDescription c
    | none => "날씨 코드: undefined"
  let maxT := (maxTemps.get? i).getD "undefined"
  let minT := (minTemps.get? i).getD "undefined"
  let precipLine :=
    match precipitations.get? i with
    | some p => if 0 < p then "  강수량: " ++ renderNum p ++ " mm\n" else ""
    | none => ""
  "\n" ++ renderDate t ++ " (" ++ t ++ ")\n" ++
    "  날씨: " ++ desc ++ "\n" ++
    "  최고: " ++ maxT ++ "°C / 최저: " ++ minT ++ "°C\n" ++ precipLine

/-- Handler of the `get-weather` tool.  `forecastDays` is schema-validated
to an integer in `[1, 16]` (default 7). -/
def getWeatherHandler (renderNum : ℚ → String) (renderDate : String → String)
    (forecastDays : Nat) (fetch : WeatherFetch) : ToolResponse :=
  match fetch with
  | .networkError message => textResponse ("오류: " ++ message)
  | .httpError status statusText =>
      textResponse ("오류: API 요청 실패: " ++ toString status ++ " " ++ statusText)
  | .ok data =>
      match data.current_weather with
      | none => textResponse "오류: 날씨 데이터를 가져올 수 없습니다."
      | some current =>
          let head := "=== 현재 날씨 ===\n" ++
            "온도: " ++ current.temperature ++ "°C\n" ++
            "날씨: " ++ getWeatherDescription current.weathercode ++ "\n" ++
            "풍속: " ++ current.windspeed ++ " km/h\n" ++
            "풍향: " ++ current.winddirection ++ "°\n\n"
          let dailyPart :=
            match data.daily with
            | none => ""
            | some daily =>
                match daily.time with
                | none => ""
                | some times =>
                    let maxTemps := daily.temperature_2m_max.getD []
                    let minTemps := daily.temperature_2m_min.getD []
                    let precipitations := daily.precipitation_sum.getD []
                    let dayCodes := daily.weathercode.getD []
                    "=== " ++ toString forecastDays ++ "일 예보 ===\n" ++
                      String.join (((List.range (min times.length forecastDays)).map
                        (forecastLine renderNum renderDate times maxTemps minTemps
                          precipitations dayCodes)))
          textResponse (head ++ dailyPart)

/-- Outcome of the Hugging Face `textToImage` call in `generate-image`:
the inner `try` catches the API error and rethrows with a longer message;
on success the blob is base64-encoded (`base64Data` carries the encoding
result of `blobToBase64`). -/
inductive ImageApiOutcome where
  | apiError (message : String)
  | ok (base64Data : String)
deriving DecidableEq, Repr

/-- Handler of the `generate-image` tool.  `hfToken` is
`process.env.HF_TOKEN` (`none` when unset); the source's truthiness test
`!process.env.HF_TOKEN` also fails an empty-string value. -/
def generateImageHandler (hfToken : Option String)
    (api : ImageApiOutcome) : ToolResponse :=
  let tokenPresent := match hfToken with | none => false | some t => t ≠ ""
  if tokenPresent then
    match api with
    | .apiError message =>
        textResponse ("오류: Hugging Face API 호출 실패: " ++ message ++
          ". HF_TOKEN이 올바르게 설정되어 있는지 확인해주세요.")
    | .ok base64Data => textResponse ("data:image/png;base64," ++ base64Data)
  else textResponse "오류: HF_TOKEN 환경 변수가 설정되지 않았습니다."

/-- One role-tagged message of a prompt-template result. -/
structure PromptMessage where
  role : String
  content : ContentBlock
deriving DecidableEq, Repr

/-- Result of a prompt generator: `{ messages: [...] }`. -/
structure PromptResponse where
  messages : List PromptMessage
deriving DecidableEq, Repr

/-- The fixed five-section review template (`codeReviewPromptTemplate`). -/
def codeReviewPromptTemplate : String :=
  "다음 코드를 리뷰해주세요. 다음 항목들을 중점적으로 검토해주세요:\n\n1. **코드 품질**\n   - 가독성과 유지보수성\n   - 네이밍 컨벤션\n   - 코드 구조와 조직화\n\n2. **성능**\n   - 잠재적인 성능 병목\n   - 최적화 가능한 부분\n   - 메모리 사용 효율성\n\n3. **보안**\n   - 보안 취약점\n   - 입력 검증\n   - 에러 처리\n\n4. **모범 사례**\n   - 언어별 베스트 프랙티스 준수 여부\n   - 디자인 패턴 적용\n   - 테스트 가능성\n\n5. **개선 제안**\n   - 구체적인 개선 방안\n   - 리팩토링 제안\n   - 대안 코드 예시\n\n**리뷰할 코드:**\n```\n{code}\n```\n\n위 코드에 대한 상세한 리뷰를 제공해주세요."

/-- The per-language guideline table (`languageGuidelines`). -/
def languageGuidelines : List (String × String) :=
  [("typescript", "\n\n**TypeScript 특화 검토 사항:**\n- 타입 안정성과 타입 추론\n- 제네릭 사용의 적절성\n- 인터페이스와 타입 정의의 명확성"),
   ("javascript", "\n\n**JavaScript 특화 검토 사항:**\n- ES6+ 기능 활용\n- 비동기 처리 (Promise, async/await)\n- 스코프와 클로저 사용"),
   ("python", "\n\n**Python 특화 검토 사항:**\n- PEP 8 스타일 가이드 준수\n- 리스트 컴프리헨션 활용\n- 예외 처리와 컨텍스트 매니저 사용"),
   ("java", "\n\n**Java 특화 검토 사항:**\n- 객체지향 설계 원칙\n- 예외 처리 전략\n- 컬렉션 프레임워크 활용"),
   ("go", "\n\n**Go 특화 검토 사항:**\n- 에러 처리 패턴\n- 고루틴과 채널 사용\n- 인터페이스 설계")]

/-- The per-focus guideline table (`focusGuidelines`). -/
def focusGuidelines : List (String × String) :=
  [("performance", "\n\n**성능 최적화 집중 검토:**\n- 알고리즘 시간 복잡도 분석\n- 불필요한 반복문이나 중첩 루프\n- 캐싱 가능한 연산\n- 데이터베이스 쿼리 최적화"),
   ("security", "\n\n**보안 집중 검토:**\n- SQL 인젝션 방지\n- XSS 공격 방지\n- 인증 및 권한 검증\n- 민감 정보 노출 방지"),
   ("readability", "\n\n**가독성 집중 검토:**\n- 변수와 함수명의 명확성\n- 주석의 적절성\n- 코드 길이와 복잡도\n- 일관된 코딩 스타일")]

/-- Character-wise lowercasing, the `toLowerCase()` of JavaScript applied
to the characters of the string (defined over the character list so that
it evaluates by kernel reduction). -/
def toLowerString (s : String) : String := ⟨s.data.map Char.toLower⟩

/-- Generator of the `code-review` prompt.  `language` and `focus` are
optional arguments; `args.language || ''` maps an absent (or empty)
value to the empty string, which fails the truthiness guard.  The
template contains `\x7bcode\x7d` exactly once, so the single-occurrence
`String.replace` of JavaScript coincides with replace-all. -/
def codeReviewGenerator (code : String) (language focus : Option String) :
    PromptResponse :=
  let language := language.getD ""
  let focus := focus.getD ""
  let prompt := codeReviewPromptTemplate.replace "{code}" code
  let prompt :=
    if language ≠ "" then
      match languageGuidelines.lookup (toLowerString language) with
      | some g => prompt ++ g
      | none => prompt
    else prompt
  let prompt :=
    if focus ≠ "" then
      match focusGuidelines.lookup (toLowerString focus) with
      | some g => prompt ++ g
      | none => prompt
    else prompt
  { messages := [{ role := "user", content := { type := "text", text := prompt } }] }

/-- The text of the generated code-review prompt. -/
def codeReviewPromptText (code : String) (language focus : Option String) :
    String :=
  (((codeReviewGenerator code language focus).messages.map
    (fun m => m.content.text)).headD "")

/-- One entry of the `tools` manifest inside the `server-info` resource:
name, description, and the input shape as a field-name/description map. -/
structure ToolManifestEntry where
  name : String
  description : String
  input : List (String × String)
deriving DecidableEq, Repr

/-- The `server` object of the `server-info` document. -/
structure ServerInfoServer where
  name : String
  version : String
  uptime : ℚ
  timestamp : String
deriving DecidableEq, Repr

/-- The `server-info` JSON document before serialization. -/
structure ServerInfo where
  server : ServerInfoServer
  tools : List ToolManifestEntry
deriving DecidableEq, Repr

/-- The literal `tools` array of the `server-info` producer. -/
def serverInfoTools : List ToolManifestEntry :=
  [{ name := "greet",
     description := "이름과 언어를 입력하면 인사말을 반환합니다.",
     input := [("name", "string - 인사할 사람의 이름"),
               ("language", "enum[\"ko\", \"en\"] (optional, default: \"en\") - 인사 언어")] },
   { name := "calculator",
     description := "두 개의 숫자와 연산자를 입력받아 사칙연산 결과를 반환합니다.",
     input := [("num1", "number - 첫 번째 숫자"),
               ("num2", "number - 두 번째 숫자"),
               ("operator", "enum[\"+\", \"-\", \"*\", \"/\"] - 연산자")] },
   { name := "time",
     description := "시간대를 입력받아 해당 시간대의 현재 시각을 반환합니다.",
     input := [("timezone", "string - 시간대 (예: UTC+9, UTC+0, UTC-5)")] },
   { name := "geocode",
     description := "도시 이름이나 주소를 입력받아서 위도와 경도 좌표를 반환합니다.",
     input := [("query", "string - 검색할 도시 이름이나 주소")] },
   { name := "get-weather",
     description := "위도와 경도 좌표, 예보 기간을 입력받아서 해당 위치의 현재 날씨와 예보 정보를 제공합니다.",
     input := [("latitude", "number (-90 ~ 90) - 위도"),
               ("longitude", "number (-180 ~ 180) - 경도"),
               ("forecastDays", "number (1~16, optional, default: 7) - 예보 기간 (일 단위)")] }]

/-- Names passed to the `server.registerTool` calls of `src/index.ts`, in
source order. -/
def registeredToolNames : List String :=
  ["greet", "calculator", "time", "geocode", "get-weather", "generate-image"]

/-- Producer of the `server-info` resource: a fresh document assembled on
every read from the current `process.uptime()` and
`new Date().toISOString()` values. -/
def serverInfoDoc (uptime : ℚ) (timestamp : String) : ServerInfo :=
  { server := { name := "my-mcp-server", version := "1.0.0",
                uptime := uptime, timestamp := timestamp }
    tools := serverInfoTools }

/-- Result of dispatching a `time` invocation: either a protocol-level
schema-validation error or the handler's response. -/
inductive TimeDispatchResult where
  | invalidArgument (message : String)
  | handled (response : ToolResponse)
deriving DecidableEq, Repr

/-- The message attached to the `time` schema's `.regex` validator. -/
def timezoneSchemaMessage : String :=
  "시간대는 UTC+숫자 또는 UTC-숫자 형식이어야 합니다."

/-- Modelled from the spec: the dispatcher is owned by the external MCP
SDK and is not part of this repository; per the spec it validates the raw
arguments against the registered input schema and fails with a
protocol-level `InvalidArgument` error, carrying the field-level message,
before the handler runs.  For the `time` tool the registered schema is the
`.regex` pattern embedded as `timezonePatternMatches`. -/
def dispatchTime (tzOffsetMinutes epochMillis : Int) (timezone : String) :
    TimeDispatchResult :=
  if timezonePatternMatches timezone then
    .handled (timeHandler tzOffsetMinutes epochMillis timezone)
  else .invalidArgument timezoneSchemaMessage

/-- Operator symbol table of the specification:
`+ ↦ +`, `- ↦ -`, `* ↦ ×`, `/ ↦ ÷`. -/
def specOperatorSymbol (operator : String) : String :=
  if operator = "+" then "+"
  else if operator = "-" then "-"
  else if operator = "*" then "×"
  else "÷"

/-- Exact arithmetic meaning of an operator, per the specification. -/
def specApplyOp (operator : String) (a b : ℚ) : ℚ :=
  if operator = "+" then a + b
  else if operator = "-" then a - b
  else if operator = "*" then a * b
  else a / b

/-- The specification's recognized language keys for `code-review`. -/
def recognizedLanguages : List String :=
  ["typescript", "javascript", "python", "java", "go"]

/-- The specification's recognized focus keys for `code-review`. -/
def recognizedFocusAreas : List String :=
  ["performance", "security", "readability"]

/-- Does a string have the spec's error-text form `오류: {message}`, that
is, start with the four characters `오`, `류`, `:`, space? -/
def isErrorFormText (s : String) : Bool :=
  s.data.take 4 = ['오', '류', ':', ' ']

/-! Helper lemmas about association-list lookup, shared by several of the
claim proofs below. -/

theorem lookup_isSome_iff_mem_keys {α β : Type} [BEq α] [LawfulBEq α]
    (l : List (α × β)) (c : α) :
    (l.lookup c).isSome = true ↔ c ∈ l.map Prod.fst := by
  induction l with
  | nil => simp [List.lookup]
  | cons p t ih =>
      obtain ⟨k, v⟩ := p
      by_cases hck : c = k
      · subst hck
        simp [List.lookup]
      · have hbeq : (c == k) = false := beq_eq_false_iff_ne.mpr hck
        simp [List.lookup, hbeq, hck, ih]

theorem lookup_eq_none_of_not_mem_keys {α β : Type} [BEq α] [LawfulBEq α]
    (l : List (α × β)) (c : α) (h : c ∉ l.map Prod.fst) :
    l.lookup c = none := by
  cases h' : l.lookup c with
  | none => rfl
  | some v =>
      exact absurd ((lookup_isSome_iff_mem_keys l c).mp (by simp [h'])) h


/-- C2: for every pair of numbers, every operator among `+ - * /` and
(for division) a non-zero second operand, the calculator tool returns the
single text block `"{num1} {symbol} {num2} = {result}"`, with the symbol
mapped through `{+ ↦ +, - ↦ -, * ↦ ×, / ↦ ÷}` and the result the exact
arithmetic value of the operation (numbers embedded as exact rationals,
their rendering abstracted by `render`). -/
theorem calculator_formats_exact_result (render : ℚ → String)
    (num1 num2 : ℚ) (operator : String)
    (hop : operator ∈ ["+", "-", "*", "/"])
    (hdiv : operator = "/" → num2 ≠ 0) :
    calculatorHandler render num1 num2 operator =
      textResponse (render num1 ++ " " ++ specOperatorSymbol operator ++ " " ++
        render num2 ++ " = " ++ render (specApplyOp operator num1 num2)) := by
  have h2 : operator = "/" → ¬(num2 = 0) := hdiv
  simp only [List.mem_cons, List.not_mem_nil, or_false] at hop
  rcases hop with h | h | h | h
  · subst h
    simp [calculatorHandler, specOperatorSymbol, specApplyOp, String.append_assoc]
  · subst h
    simp [calculatorHandler, specOperatorSymbol, specApplyOp, String.append_assoc]
  · subst h
    simp [calculatorHandler, specOperatorSymbol, specApplyOp, String.append_assoc]
  · subst h
    have hz : ¬(num2 = 0) := h2 rfl
    simp [calculatorHandler, specOperatorSymbol, specApplyOp, hz,
      String.append_assoc]

/-- Witness for C2 at `1 + 2` with a constant rendering function. -/
theorem calculator_formats_exact_result_witness :
    calculatorHandler (fun _ => "n") 1 2 "+" =
      textResponse ("n" ++ " " ++ specOperatorSymbol "+" ++ " " ++ "n" ++
        " = " ++ "n") :=
  calculator_formats_exact_result (fun _ => "n") 1 2 "+" (by decide)
    (fun h => absurd h (by decide))

/-- C3: for every first operand, dividing by zero yields the ordinary
success-shaped single-text-block response `오류: 0으로 나눌 수 없습니다.`
(the handler is a total function into `ToolResponse`: no exception, no
protocol-level error). -/
theorem calculator_div_zero_success_text (render : ℚ → String) (num1 : ℚ) :
    calculatorHandler render num1 0 "/" =
      textResponse "오류: 0으로 나눌 수 없습니다." := by
  simp [calculatorHandler]

/-- C9: for every tool of the server and every input — error branches
included — the `structuredContent.content` list of the response is
element-for-element identical to its `content` list. -/
theorem structured_content_mirrors_content :
    (∀ name language, (greetHandler name language).structuredContent.content =
      (greetHandler name language).content) ∧
    (∀ render num1 num2 operator,
      (calculatorHandler render num1 num2 operator).structuredContent.content =
        (calculatorHandler render num1 num2 operator).content) ∧
    (∀ tzOffsetMinutes epochMillis timezone,
      (timeHandler tzOffsetMinutes epochMillis timezone).structuredContent.content =
        (timeHandler tzOffsetMinutes epochMillis timezone).content) ∧
    (∀ renderFloat query fetch,
      (geocodeHandler renderFloat query fetch).structuredContent.content =
        (geocodeHandler renderFloat query fetch).content) ∧
    (∀ renderNum renderDate forecastDays fetch,
      (getWeatherHandler renderNum renderDate forecastDays fetch).structuredContent.content =
        (getWeatherHandler renderNum renderDate forecastDays fetch).content) ∧
    (∀ hfToken api,
      (generateImageHandler hfToken api).structuredContent.content =
        (generateImageHandler hfToken api).content) := by
  refine ⟨fun _ _ => rfl, fun _ _ _ _ => rfl, ?_, ?_, ?_, ?_⟩
  · intro tz e timezone
    unfold timeHandler
    split <;> rfl
  · intro rf q fetch
    unfold geocodeHandler
    split <;> rfl
  · intro rn rd fd fetch
    unfold getWeatherHandler
    split
    · rfl
    · rfl
    · split <;> rfl
  · intro hfToken api
    cases hfToken with
    | none => rfl
    | some t =>
        by_cases ht : t = "" <;> cases api <;>
          simp [generateImageHandler, ht, textResponse]

/-- C10: when the geocoding API returns a non-empty array whose first
element has no `display_name` field, the geocode tool falls back to the
original query string as the displayed location name. -/
theorem geocode_display_name_fallback (renderFloat : String → String)
    (query lat lon : String) (rest : List GeoResult) :
    geocodeHandler renderFloat query
        (.ok ({ lat := lat, lon := lon, display_name := none } :: rest)) =
      textResponse ("위치: " ++ query ++ "\n위도: " ++ renderFloat lat ++
        "\n경도: " ++ renderFloat lon) := rfl

/-- C4: the weather-code rendering is total over the integers: each of
the 28 listed codes maps to its fixed description from the lookup table
(whose key set is exactly the listed set), and every other integer code
renders as `날씨 코드: {code}`. -/
theorem weather_description_total :
    weatherCodes.map Prod.fst =
      [0, 1, 2, 3, 45, 48, 51, 53, 55, 56, 57, 61, 63, 65, 66, 67, 71, 73,
       75, 77, 80, 81, 82, 85, 86, 95, 96, 99] ∧
    (∀ p ∈ weatherCodes, getWeatherDescription p.1 = p.2) ∧
    (∀ code : Int, code ∉ weatherCodes.map Prod.fst →
      getWeatherDescription code = "날씨 코드: " ++ toString code) := by
  refine ⟨by decide, by decide, ?_⟩
  intro code h
  unfold getWeatherDescription
  rw [lookup_eq_none_of_not_mem_keys _ _ h]
  rfl

/-- Witness for C4: code 0 is in the table, code 4 is not. -/
theorem weather_description_total_witness :
    getWeatherDescription 0 = "맑음" ∧
    getWeatherDescription 4 = "날씨 코드: " ++ toString (4 : Int) :=
  ⟨weather_description_total.2.1 (0, "맑음") (by decide),
   weather_description_total.2.2 4 (by decide)⟩


/-- A truthiness-guarded table append of the `code-review` generator,
rewritten as an unconditional append of a possibly-empty block, provided
the empty string is not a key of the table. -/
theorem append_guard_eq (p x : String) (tbl : List (String × String))
    (hempty : "" ∉ tbl.map Prod.fst) :
    (if x ≠ "" then
       match tbl.lookup (toLowerString x) with
       | some g => p ++ g
       | none => p
     else p) =
      p ++ (if toLowerString x ∈ tbl.map Prod.fst then
        (tbl.lookup (toLowerString x)).getD "" else "") := by
  by_cases hx : x = ""
  · subst hx
    have ht : toLowerString "" = "" := by decide
    rw [ht]
    simp [hempty]
  · cases hlk : tbl.lookup (toLowerString x) with
    | none =>
        have hm : toLowerString x ∉ tbl.map Prod.fst := by
          intro hmem
          have := (lookup_isSome_iff_mem_keys tbl (toLowerString x)).mpr hmem
          simp [hlk] at this
        simp [hx, hlk, hm]
    | some g =>
        have hm : toLowerString x ∈ tbl.map Prod.fst :=
          (lookup_isSome_iff_mem_keys tbl (toLowerString x)).mp (by simp [hlk])
        simp [hx, hlk, hm]

/-- C5: the code-review prompt is the five-section template with the code
substituted, followed by the language guideline block exactly when the
lowercased language is one of the five recognized keys, followed by the
focus guideline block exactly when the lowercased focus is one of the
three recognized keys; unrecognized values contribute nothing and raise
no error (the generator is total). -/
theorem code_review_guideline_blocks (code : String)
    (language focus : Option String) :
    codeReviewPromptText code language focus =
      codeReviewPromptTemplate.replace "{code}" code ++
        (if toLowerString (language.getD "") ∈ recognizedLanguages then
          (languageGuidelines.lookup (toLowerString (language.getD ""))).getD ""
        else "") ++
        (if toLowerString (focus.getD "") ∈ recognizedFocusAreas then
          (focusGuidelines.lookup (toLowerString (focus.getD ""))).getD ""
        else "") := by
  have keysL : languageGuidelines.map Prod.fst = recognizedLanguages := rfl
  have keysF : focusGuidelines.map Prod.fst = recognizedFocusAreas := rfl
  unfold codeReviewPromptText codeReviewGenerator
  dsimp only [List.map, List.headD]
  rw [append_guard_eq _ _ _ (by decide), append_guard_eq _ _ _ (by decide),
    keysL, keysF]

/-- Helper for C8: a string accepted by the schema regex is also accepted
by the handler's own regex match (the two patterns are identical). -/
theorem parseTimezone_isSome_of_pattern (s : String)
    (h : timezonePatternMatches s = true) :
    (parseTimezone s).isSome = true := by
  unfold timezonePatternMatches at h
  unfold parseTimezone
  split at h
  next c ds heq => simp [h]
  next heq => exact absurd h (by simp)

/-- C8: an input failing the `^UTC[+-]\d+$` schema pattern is rejected
with the protocol-level `InvalidArgument` error (carrying the schema's
field message) before the handler runs, and under the precondition that
the input matches the pattern the handler's own regex match succeeds, so
its internal malformed-timezone branch is unreachable. -/
theorem time_schema_validation_guards_handler :
    (∀ (tzOffsetMinutes epochMillis : Int) (timezone : String),
      timezonePatternMatches timezone = false →
        dispatchTime tzOffsetMinutes epochMillis timezone =
          TimeDispatchResult.invalidArgument timezoneSchemaMessage) ∧
    (∀ timezone : String, timezonePatternMatches timezone = true →
      (parseTimezone timezone).isSome = true) := by
  constructor
  · intro tz e s h
    unfold dispatchTime
    simp [h]
  · exact parseTimezone_isSome_of_pattern

/-- Witness for C8: `bogus` is rejected by the schema; `UTC+9` passes the
schema and the handler's own match succeeds on it. -/
theorem time_schema_validation_guards_handler_witness :
    dispatchTime 0 0 "bogus" =
      TimeDispatchResult.invalidArgument timezoneSchemaMessage ∧
    (parseTimezone "UTC+9").isSome = true :=
  ⟨time_schema_validation_guards_handler.1 0 0 "bogus" (by decide),
   time_schema_validation_guards_handler.2 "UTC+9" (by decide)⟩


/-- Appending anything to an error-form string of length at least four
keeps the error form. -/
theorem isErrorFormText_append (s t : String) (h : isErrorFormText s = true)
    (hlen : 4 ≤ s.data.length) : isErrorFormText (s ++ t) = true := by
  unfold isErrorFormText at h ⊢
  rw [String.data_append, List.take_append_of_le_length hlen]
  exact h

/-- C6 (amended): each domain-level error is caught inside its handler
and returned as a success-shaped response with a single text block; the
division-by-zero, malformed-timezone, upstream-HTTP-failure and
missing-credential texts all have the form `오류: {message}`, while the
empty-geocoding-result branch returns the not-found text
`"{query}"에 대한 검색 결과를 찾을 수 없습니다.`, which is success-shaped
but not of the `오류: {message}` form. -/
theorem domain_errors_error_text :
    (∀ (render : ℚ → String) (num1 : ℚ),
      calculatorHandler render num1 0 "/" =
        textResponse "오류: 0으로 나눌 수 없습니다.") ∧
    isErrorFormText "오류: 0으로 나눌 수 없습니다." = true ∧
    (∀ (tzOffsetMinutes epochMillis : Int) (timezone : String),
      parseTimezone timezone = none →
        timeHandler tzOffsetMinutes epochMillis timezone =
          textResponse
            "오류: 잘못된 시간대 형식입니다. UTC+숫자 또는 UTC-숫자 형식을 사용해주세요.") ∧
    isErrorFormText
      "오류: 잘못된 시간대 형식입니다. UTC+숫자 또는 UTC-숫자 형식을 사용해주세요." = true ∧
    (∀ (renderFloat : String → String) (query : String)
      (status : Nat) (statusText : String),
      geocodeHandler renderFloat query (.httpError status statusText) =
        textResponse ("오류: API 요청 실패: " ++ toString status ++ " " ++ statusText)) ∧
    (∀ (status : Nat) (statusText : String),
      isErrorFormText
        ("오류: API 요청 실패: " ++ toString status ++ " " ++ statusText) = true) ∧
    (∀ api : ImageApiOutcome,
      generateImageHandler none api =
        textResponse "오류: HF_TOKEN 환경 변수가 설정되지 않았습니다.") ∧
    isErrorFormText "오류: HF_TOKEN 환경 변수가 설정되지 않았습니다." = true ∧
    (∀ (renderFloat : String → String) (query : String),
      geocodeHandler renderFloat query (.ok []) =
        textResponse ("\"" ++ query ++ "\"에 대한 검색 결과를 찾을 수 없습니다.")) := by
  refine ⟨?_, by decide, ?_, by decide, ?_, ?_, ?_, by decide, ?_⟩
  · intro render num1
    simp [calculatorHandler]
  · intro tz e s h
    unfold timeHandler
    rw [h]
  · intro rf q st stx
    rfl
  · intro st stx
    have h1 : isErrorFormText "오류: API 요청 실패: " = true := by decide
    have h2 := isErrorFormText_append "오류: API 요청 실패: "
      (toString st ++ " " ++ stx) h1 (by decide)
    simp only [String.append_assoc] at h2 ⊢
    exact h2
  · intro api
    rfl
  · intro rf q
    rfl

/-- Witness for C6's amended statement, at the malformed timezone
`bogus`. -/
theorem domain_errors_error_text_witness :
    timeHandler 0 0 "bogus" =
      textResponse
        "오류: 잘못된 시간대 형식입니다. UTC+숫자 또는 UTC-숫자 형식을 사용해주세요." :=
  domain_errors_error_text.2.2.1 0 0 "bogus" (by decide)

/-- C6 (counterexample to the claim as stated): on an empty geocoding
result the handler returns the not-found text, whose content does not
have the `오류: {message}` form the claim requires of every domain-level
error. -/
theorem geocode_not_found_text_not_error_form :
    geocodeHandler (fun s => s) "서울" (.ok []) =
      textResponse "\"서울\"에 대한 검색 결과를 찾을 수 없습니다." ∧
    isErrorFormText "\"서울\"에 대한 검색 결과를 찾을 수 없습니다." = false :=
  ⟨rfl, by decide⟩

/-- C7 (amended): every read of the server-info resource produces a
document with the server name, version and the read's own uptime and
timestamp, and a manifest whose tool set is exactly
`greet, calculator, time, geocode, get-weather` — a strict subset of the
registered tools, omitting `generate-image`. -/
theorem server_info_manifest_fields (uptime : ℚ) (timestamp : String) :
    (serverInfoDoc uptime timestamp).server.name = "my-mcp-server" ∧
    (serverInfoDoc uptime timestamp).server.version = "1.0.0" ∧
    (serverInfoDoc uptime timestamp).server.uptime = uptime ∧
    (serverInfoDoc uptime timestamp).server.timestamp = timestamp ∧
    (serverInfoDoc uptime timestamp).tools.map ToolManifestEntry.name =
      ["greet", "calculator", "time", "geocode", "get-weather"] ∧
    ((serverInfoDoc uptime timestamp).tools.map ToolManifestEntry.name).all
      registeredToolNames.contains = true :=
  ⟨rfl, rfl, rfl, rfl, rfl, rfl⟩

/-- Witness for C7's amended statement at a concrete read instant. -/
theorem server_info_manifest_fields_witness :
    (serverInfoDoc 12 "2025-10-12T00:00:00.000Z").tools.map
        ToolManifestEntry.name =
      ["greet", "calculator", "time", "geocode", "get-weather"] :=
  (server_info_manifest_fields 12 "2025-10-12T00:00:00.000Z").2.2.2.2.1

/-- C7 (counterexample to the claim as stated): `generate-image` is a
registered tool but is absent from the server-info manifest, so the
manifest's tool set is not the registered tool set. -/
theorem server_info_omits_generate_image :
    "generate-image" ∈ registeredToolNames ∧
    "generate-image" ∉
      (serverInfoDoc 0 "2025-10-12T00:00:00.000Z").tools.map
        ToolManifestEntry.name := by
  constructor
  · decide
  · decide

/-- C1 (the code, evaluated at the failing configuration): in a process
whose local timezone is UTC+9 (`getTimezoneOffset()` returns −540), the
`time` tool called with `UTC+9` renders the instant `epochMillis` itself
— the current UTC wall-clock time — because the handler's
`getTimezoneOffset` correction (−9 h) cancels the parsed +9 h offset
before the UTC getters format the result.  The claim instead requires the
timestamp of `epochMillis + 9 h`, which differs, as the second conjunct
shows at 2025-10-12 00:00:00 UTC. -/
theorem time_handler_depends_on_local_timezone :
    (∀ epochMillis : Int,
      timeHandler (-540) epochMillis "UTC+9" =
        textResponse ("UTC+9 시간대의 현재 시각: " ++
          formatTimestamp epochMillis)) ∧
    formatTimestamp 1760227200000 ≠
      formatTimestamp (1760227200000 + 9 * 60 * 60 * 1000) := by
  constructor
  · intro e
    have hp : parseTimezone "UTC+9" = some (1, 9) := by decide
    unfold timeHandler
    rw [hp]
    have harg : e + (-540) * 60 * 1000 + ((9 : Nat) : Int) * 60 * 60 * 1000 * 1 = e := by
      push_cast
      ring
    simp only []
    rw [harg]
    have hlit : ("UTC+9" ++ " 시간대의 현재 시각: ") = "UTC+9 시간대의 현재 시각: " := by
      decide
    rw [hlit]
  · decide

end MCPServer
